import Mathlib

/-!
Shallow embedding of `src/static/index.js` (the Serux browser-side search
widget) and proofs of the specification's claims about it.

The script defines one async function `search(prompt)` and one script-load
sequence that looks up the `#query` input and registers a keypress handler.
We split `search` at its suspension points:

* `searchSync` — the synchronous prefix of `search` up to the first `await`:
  the `#results` lookup, the `innerHTML = ""` clear, and the `fetch` call
  (which issues the HTTP request synchronously).
* `searchResolve` — what runs once the response and its parsed JSON body are
  available: the `for ([path, rank] of ...)` render loop and the final
  `appendChild` of the `<ul>` to the container.

JSON/JS values are modelled by `JSValue` (numbers as `Int`; the claims never
depend on float formatting).  Rejections of the async function are modelled
by the `Option JSError` component of the results; a `some` there is an
unhandled promise rejection.  The undeclared loop targets `path` and `rank`
are modelled by the `Globals` record threaded through the render loop.
-/

/-- JavaScript values as far as this script can observe them: the parsed JSON
body of the response, the destructured entry components, and `undefined`. -/
inductive JSValue where
  | undefined : JSValue
  | jnull : JSValue
  | bool : Bool → JSValue
  | num : Int → JSValue
  | str : String → JSValue
  | arr : List JSValue → JSValue
deriving Repr

mutual

/-- String conversion applied by `document.createTextNode(x)`:
`String(undefined) = "undefined"`, `String(null) = "null"`, booleans and
numbers print canonically, arrays join their elements with commas. -/
def jsToString : JSValue → String
  | .undefined => "undefined"
  | .jnull => "null"
  | .bool b => cond b "true" "false"
  | .num n => toString n
  | .str s => s
  | .arr l => jsJoin l

/-- Array-to-string join (`Array.prototype.toString`): elements separated by
commas, with `null` and `undefined` elements rendered as the empty string. -/
def jsJoin : List JSValue → String
  | [] => ""
  | [JSValue.undefined] => ""
  | [JSValue.jnull] => ""
  | [v] => jsToString v
  | JSValue.undefined :: rest => "," ++ jsJoin rest
  | JSValue.jnull :: rest => "," ++ jsJoin rest
  | v :: rest => jsToString v ++ "," ++ jsJoin rest

end

/-- The iteration protocol used both by `for ... of X` and by array
destructuring: arrays iterate their elements, strings iterate their code
points (as one-character strings), every other value is not iterable and
iterating it throws a TypeError (modelled by `none`). -/
def getIterable : JSValue → Option (List JSValue)
  | .arr l => some l
  | .str s => some (s.data.map fun c => JSValue.str (String.singleton c))
  | _ => none

/-- The destructuring `[path, rank] = entry` at the head of the render loop:
takes the first two iterated elements, filling in `undefined` when the
iterator is exhausted early; throws (`none`) when `entry` is not iterable. -/
def destructure (v : JSValue) : Option (JSValue × JSValue) :=
  (getIterable v).map fun l => (l.getD 0 JSValue.undefined, l.getD 1 JSValue.undefined)

/-- DOM nodes the script builds: elements carry a tag, a `className` and an
ordered child list; text nodes carry their content. -/
inductive Node where
  | element : String → String → List Node → Node
  | text : String → Node
deriving Repr

/-- Element.appendChild: adds a node at the end of an element's child list. -/
def appendChild : Node → Node → Node
  | .element tag cls children, n => .element tag cls (children ++ [n])
  | .text s, _ => .text s

/-- Errors the script can raise or propagate.  `typeError` models a TypeError
thrown by a member access on `null` or by iterating a non-iterable value;
`fetchOrParseError` models a rejected `fetch` (network failure) or a rejected
`response.json()` (body is not valid JSON). -/
inductive JSError where
  | typeError : JSError
  | fetchOrParseError : JSError
deriving Repr

/-- The hosting page as the script observes it: the child list of the
`#results` element (`none` when that element is absent from the page) and the
current text value of the `#query` input (`none` when it is absent). -/
structure PageEnv where
  results : Option (List Node)
  query : Option String
deriving Repr

/-- One issued HTTP request, as assembled by the `fetch` call. -/
structure HttpRequest where
  method : String
  url : String
  contentType : String
  body : String
deriving Repr

/-- The request `fetch("/api/search", {method: 'POST', headers:
{'Content-Type': 'text/plain'}, body: prompt})` issues. -/
def mkSearchRequest (prompt : String) : HttpRequest :=
  { method := "POST", url := "/api/search", contentType := "text/plain"
    body := prompt }

/-- The undeclared (hence global, in sloppy mode) loop targets `path` and
`rank`; `none` means the global has never been assigned. -/
structure Globals where
  path : Option JSValue
  rank : Option JSValue
deriving Repr

/-- Outcome of `await fetch(...)` followed by `await response.json()`:
either the whole chain rejects (network failure or a body that is not valid
JSON) or it yields the parsed JSON value. -/
inductive AsyncOutcome where
  | fail : AsyncOutcome
  | parsed : JSValue → AsyncOutcome
deriving Repr

/-- Synchronous prefix of `search(prompt)` (lines 2–8): looks up `#results`
(a member access on the `null` lookup result throws when it is absent),
clears the container via `innerHTML = ""`, and calls `fetch`, issuing exactly
the one request in the returned list.  An `Except.error` is a throw inside
the async function body, i.e. a rejected promise with no request issued. -/
def searchSync (page : PageEnv) (prompt : String) :
    Except JSError (PageEnv × List HttpRequest) :=
  match page.results with
  | none => .error .typeError
  | some _ => .ok ({ page with results := some [] }, [mkSearchRequest prompt])

/-- The `<li>` built for one destructured entry: a plain `<span>` holding a
text node with `path`, a single literal space text node, and a
`<span class="rank">` holding a text node with `rank`. -/
def mkItem (p r : JSValue) : Node :=
  .element "li" ""
    [ .element "span" "" [.text (jsToString p)]
    , .text " "
    , .element "span" "rank" [.text (jsToString r)] ]

/-- The `<li>` an entry of the parsed array produces (defaulting both
components to `undefined` in the impossible branch where destructuring
failed — the render theorems only use it for destructurable entries). -/
def entryToItem (e : JSValue) : Node :=
  match destructure e with
  | some (p, r) => mkItem p r
  | none => mkItem .undefined .undefined

/-- The values the global variables `path` and `rank` hold after the loop
body ran for entry `e` (unchanged-by-default in the impossible branch). -/
def entryGlobals (e : JSValue) : Globals :=
  match destructure e with
  | some (p, r) => { path := some p, rank := some r }
  | none => { path := none, rank := none }

/-- The render loop `for ([path, rank] of entries)` over an already-obtained
entry list, threading the `<ul>` under construction and the globals.  A
destructuring failure throws a TypeError: the loop stops, keeping the
assignments already made, and the partially built `<ul>` is never appended
anywhere.  The third component is the pending rejection, `none` on normal
completion. -/
def renderEntries (g : Globals) (ul : Node) :
    List JSValue → Globals × Node × Option JSError
  | [] => (g, ul, none)
  | e :: rest =>
    match destructure e with
    | none => (g, ul, some .typeError)
    | some (p, r) =>
      renderEntries { path := some p, rank := some r }
        (appendChild ul (mkItem p r)) rest

/-- Result of the resumed part of `search`: final globals, final page and the
rejection the async function ends with, if any. -/
structure ResolveResult where
  globals : Globals
  page : PageEnv
  rejection : Option JSError
deriving Repr

/-- Resumption of `search` after its awaits (lines 10–31): on a failed fetch
or JSON parse the rejection propagates and the DOM is untouched; otherwise a
fresh `<ul class="result-list">` is built, the render loop runs over the
iterated parsed value (throwing when it is not iterable), and only after the
whole loop completes is the `<ul>` appended to the `#results` element the
function captured earlier. -/
def searchResolve (g : Globals) (page : PageEnv) (out : AsyncOutcome) :
    ResolveResult :=
  match out with
  | .fail => ⟨g, page, some .fetchOrParseError⟩
  | .parsed v =>
    match getIterable v with
    | none => ⟨g, page, some .typeError⟩
    | some entries =>
      match renderEntries g (.element "ul" "result-list" []) entries with
      | (g', _, some e) => ⟨g', page, some e⟩
      | (g', ul, none) =>
        match page.results with
        | some ch => ⟨g', { page with results := some (ch ++ [ul]) }, none⟩
        | none => ⟨g', page, some .typeError⟩

/-- Observable outcome of one whole `search` invocation whose response has
outcome `out`: final globals and page, the requests issued, and the rejection
(if any) the returned promise ends with. -/
structure RunResult where
  globals : Globals
  page : PageEnv
  requests : List HttpRequest
  rejection : Option JSError
deriving Repr

/-- One whole `search(prompt)` invocation, composing the synchronous prefix
with the resumption once the response outcome `out` is known. -/
def searchRun (g : Globals) (page : PageEnv) (prompt : String)
    (out : AsyncOutcome) : RunResult :=
  match searchSync page prompt with
  | .error e => ⟨g, page, [], some e⟩
  | .ok (page', reqs) =>
    let r := searchResolve g page' out
    ⟨r.globals, r.page, reqs, r.rejection⟩

/-- The script-load tail of the file (lines 34–40): `let query =
document.getElementById("query")` followed by `query.addEventListener(...)`.
The lookup itself returns `null` for an absent element; the `addEventListener`
member access on `null` then throws, so load fails exactly when `#query` is
absent.  No other element is looked up at load time. -/
def scriptLoad (page : PageEnv) : Except JSError Unit :=
  match page.query with
  | none => .error .typeError
  | some _ => .ok ()

/-- Effects the keypress handler can perform on the surrounding system. -/
inductive HandlerEffect where
  | invokeSearch : String → HandlerEffect
  | preventDefault : HandlerEffect
deriving Repr

/-- The keypress handler (lines 36–40): when `e.key == "Enter"` it calls
`search(query.value)` with the input's current value; on any other key the
body does nothing — no call, no DOM access, no `preventDefault`. -/
def keypressHandler (key : String) (queryValue : String) :
    List HandlerEffect :=
  if key == "Enter" then [.invokeSearch queryValue] else []

/-- Joint outcome of two overlapping `search` invocations under the schedule
"both synchronous prefixes run before either response arrives; response A
arrives first, response B last" — the schedule rapid repeated Enter presses
produce.  Both operations act on the one shared `#results` element. -/
structure OverlapResult where
  globals : Globals
  page : PageEnv
  requests : List HttpRequest
  rejections : List JSError
deriving Repr

/-- Interleaved execution of two `search` invocations under that schedule:
prefix of A, prefix of B, resumption of A, resumption of B. -/
def overlappedRun (g : Globals) (page : PageEnv) (qA qB : String)
    (outA outB : AsyncOutcome) : OverlapResult :=
  match searchSync page qA with
  | .error e => ⟨g, page, [], [e, e]⟩
  | .ok (p1, reqsA) =>
    match searchSync p1 qB with
    | .error e => ⟨g, p1, reqsA, [e]⟩
    | .ok (p2, reqsB) =>
      let rA := searchResolve g p2 outA
      let rB := searchResolve rA.globals rA.page outB
      ⟨rB.globals, rB.page, reqsA ++ reqsB,
        rA.rejection.toList ++ rB.rejection.toList⟩

/-- The `<ul class="result-list">` that rendering the entry list `l` alone
produces. -/
def ulOf (l : List JSValue) : Node :=
  .element "ul" "result-list" (l.map entryToItem)

/-- Modelled from the spec, for comparison in claim C8: "whichever response
arrives last determines the final visible state" predicts that the results
container ends holding exactly the rendering of the last-arriving response's
parsed array, and nothing else. -/
def lastResponseWinsPrediction (l : List JSValue) : Option (List Node) :=
  some [ulOf l]

/-- Cumulative effect of the loop's destructuring assignments on the globals
`path` and `rank` over an entry list all of whose destructurings succeed. -/
def finalGlobals (g : Globals) (l : List JSValue) : Globals :=
  l.foldl
    (fun acc e =>
      match destructure e with
      | some (p, r) => { path := some p, rank := some r }
      | none => acc)
    g

/-- The render loop succeeds on an entry list whose destructurings all
succeed, extending the child list of the `<ul>` under construction with the
items of the entries, in order, and leaving the globals at the cumulative
fold of the destructuring assignments. -/
theorem renderEntries_ok (l : List JSValue) :
    ∀ (g : Globals) (t c : String) (acc : List Node),
    (∀ e ∈ l, (destructure e).isSome) →
    renderEntries g (.element t c acc) l
      = (finalGlobals g l, .element t c (acc ++ l.map entryToItem), none) := by
  induction l with
  | nil => intro g t c acc _; simp [renderEntries, finalGlobals]
  | cons e rest ih =>
    intro g t c acc h
    obtain ⟨⟨p, r⟩, hpr⟩ :=
      Option.isSome_iff_exists.mp (h e (List.mem_cons_self e rest))
    have hrest : ∀ x ∈ rest, (destructure x).isSome :=
      fun x hx => h x (List.mem_cons_of_mem e hx)
    simp only [renderEntries, hpr, appendChild]
    rw [ih _ _ _ _ hrest]
    simp [finalGlobals, entryToItem, hpr]

/-- When some entry of the list fails to destructure, the render loop throws
a TypeError: its third component is that pending rejection. -/
theorem renderEntries_err (l : List JSValue) :
    ∀ (g : Globals) (nd : Node), (∃ e ∈ l, destructure e = none) →
    (renderEntries g nd l).2.2 = some JSError.typeError := by
  induction l with
  | nil => intro g nd h; simp at h
  | cons e rest ih =>
    intro g nd h
    cases hde : destructure e with
    | none => simp [renderEntries, hde]
    | some pr =>
      obtain ⟨p, r⟩ := pr
      have hrest : ∃ x ∈ rest, destructure x = none := by
        obtain ⟨x, hx, hxnone⟩ := h
        cases List.mem_cons.mp hx with
        | inl heq => rw [heq, hde] at hxnone; cases hxnone
        | inr hmem => exact ⟨x, hmem, hxnone⟩
      simp only [renderEntries, hde]
      exact ih _ _ hrest

/-- When the render loop completes without throwing on a nonempty entry
list, the globals it leaves behind are the destructured components of the
last entry (whose destructuring in particular succeeded). -/
theorem renderEntries_last (l : List JSValue) :
    ∀ (g : Globals) (nd : Node) (e : JSValue),
    (renderEntries g nd l).2.2 = none → l.getLast? = some e →
    (renderEntries g nd l).1 = entryGlobals e ∧ (destructure e).isSome := by
  induction l with
  | nil => intro g nd e _ hlast; cases hlast
  | cons x rest ih =>
    intro g nd e hnone hlast
    cases hdx : destructure x with
    | none => simp [renderEntries, hdx] at hnone
    | some pr =>
      obtain ⟨p, r⟩ := pr
      cases rest with
      | nil =>
        have hex : e = x := by
          simp [List.getLast?] at hlast
          exact hlast.symm
        subst hex
        simp [renderEntries, hdx, entryGlobals]
      | cons y ys =>
        have hlast' : (y :: ys).getLast? = some e := by
          rwa [List.getLast?_cons_cons] at hlast
        simp only [renderEntries, hdx] at hnone ⊢
        exact ih _ _ _ hnone hlast'

/-- C1: for every parsed response array, search renders exactly the entries
present in the response, in response order, with no entry skipped, reordered
or deduplicated: each entry, in order, yields a list item containing a text
node with `path`, a single literal space text node and a `class "rank"` text
node with `rank`, all items go into a single `<ul class="result-list">`, and
that list is appended once to the results container, which then holds it as
its only child. -/
theorem C1_render_exact (g : Globals) (qv : Option String) (q : String)
    (ch : List Node) (l : List JSValue)
    (hwf : ∀ e ∈ l, (destructure e).isSome) :
    searchRun g ⟨some ch, qv⟩ q (.parsed (.arr l))
      = ⟨finalGlobals g l,
         ⟨some [Node.element "ul" "result-list" (l.map entryToItem)], qv⟩,
         [mkSearchRequest q], none⟩ := by
  simp only [searchRun, searchSync, searchResolve, getIterable]
  rw [renderEntries_ok l g "ul" "result-list" [] hwf]
  simp

/-- C1 witness: the spec's own example response, two entries rendered in
order as `"a.txt 3"` and `"b.txt 1"`. -/
theorem C1_render_exact_witness :
    searchRun ⟨none, none⟩ ⟨some [], some ""⟩ "q"
        (.parsed (.arr [.arr [.str "a.txt", .num 3],
                        .arr [.str "b.txt", .num 1]]))
      = ⟨finalGlobals ⟨none, none⟩
           [.arr [.str "a.txt", .num 3], .arr [.str "b.txt", .num 1]],
         ⟨some [Node.element "ul" "result-list"
             ([.arr [.str "a.txt", .num 3],
               .arr [.str "b.txt", .num 1]].map entryToItem)], some ""⟩,
         [mkSearchRequest "q"], none⟩ :=
  C1_render_exact ⟨none, none⟩ (some "") "q" []
    [.arr [.str "a.txt", .num 3], .arr [.str "b.txt", .num 1]]
    (by intro e he; fin_cases he <;> rfl)

/-- C2: for every query string `q` (the empty string included), invoking
`search(q)` issues exactly one HTTP request: method POST, to the fixed
endpoint `/api/search`, with header `Content-Type: text/plain` and body
exactly the raw string `q` — no JSON encoding, no URL encoding, no trimming
or normalization. -/
theorem C2_single_post (qv : Option String) (ch : List Node) (q : String) :
    searchSync ⟨some ch, qv⟩ q
      = Except.ok ((⟨some [], qv⟩ : PageEnv),
          [{ method := "POST", url := "/api/search",
             contentType := "text/plain", body := q }]) := rfl

/-- C3: every invocation of `search` clears the results container
synchronously, before the response resolves: right after the synchronous
prefix the container has zero children, and the resumption either leaves it
cleared (on any rejection) or appends the single new list, so the container
never holds more than that one child. -/
theorem C3_clears_synchronously (g : Globals) (qv : Option String)
    (ch : List Node) (q : String) (out : AsyncOutcome) :
    searchSync ⟨some ch, qv⟩ q
        = Except.ok ((⟨some [], qv⟩ : PageEnv), [mkSearchRequest q])
    ∧ ((searchResolve g ⟨some [], qv⟩ out).rejection.isSome →
        (searchResolve g ⟨some [], qv⟩ out).page.results = some [])
    ∧ (((searchResolve g ⟨some [], qv⟩ out).page.results.getD []).length ≤ 1) := by
  refine ⟨rfl, ?_⟩
  cases out with
  | fail => simp [searchResolve]
  | parsed v =>
    cases hit : getIterable v with
    | none => simp [searchResolve, hit]
    | some entries =>
      rcases hre : renderEntries g (Node.element "ul" "result-list" []) entries
        with ⟨g', ul, err⟩
      cases err <;> simp [searchResolve, hit, hre]

/-- C3 witness: on a page whose container holds one stale node, invoking
`search ""` with a failing response leaves the container cleared. -/
theorem C3_clears_synchronously_witness :
    (searchResolve ⟨none, none⟩ ⟨some [], some ""⟩ .fail).page.results
      = some [] :=
  (C3_clears_synchronously ⟨none, none⟩ (some "") [Node.text "stale"] ""
    .fail).2.1 rfl

/-- C4: when the fetch fails or the body is not valid JSON, the async
operation ends in an uncaught rejection, the container stays cleared with no
list appended and no error message rendered, and the triggering handler
itself returns normally (the one effect it performs is the `search` call;
nothing is thrown synchronously). -/
theorem C4_failure_uncaught (g : Globals) (qv : Option String)
    (ch : List Node) (q : String) :
    searchRun g ⟨some ch, qv⟩ q .fail
      = ⟨g, ⟨some [], qv⟩, [mkSearchRequest q], some .fetchOrParseError⟩
    ∧ keypressHandler "Enter" q = [.invokeSearch q] := ⟨rfl, rfl⟩

/-- C5 counterexample: on a page where the `#results` element is absent but
`#query` is present, script load succeeds — nothing fails at load time,
contradicting the claim that a missing `results` element is fatal at script
load. -/
theorem C5_counterexample :
    (⟨none, some ""⟩ : PageEnv).results = none
    ∧ scriptLoad ⟨none, some ""⟩ = Except.ok () := ⟨rfl, rfl⟩

/-- C5 (amended): only a missing `#query` element is fatal at script load;
with `#query` present, load succeeds even when `#results` is absent, and the
failure is instead deferred to each `search` invocation, which then rejects
asynchronously at the container lookup, issuing no request and touching no
DOM. -/
theorem C5_amended (g : Globals) (q qv : String) (rs : Option (List Node))
    (out : AsyncOutcome) :
    scriptLoad ⟨rs, none⟩ = Except.error JSError.typeError
    ∧ scriptLoad ⟨rs, some qv⟩ = Except.ok ()
    ∧ searchRun g ⟨none, some qv⟩ q out
        = ⟨g, ⟨none, some qv⟩, [], some JSError.typeError⟩ := ⟨rfl, rfl, rfl⟩

/-- C6: the keypress handler invokes `search` with the verbatim current
value of the input exactly when the pressed key is Enter; any other key
produces no effect at all — no search invocation and no `preventDefault`,
which the handler never calls for any key. -/
theorem C6_keypress (k v : String) :
    keypressHandler "Enter" v = [.invokeSearch v]
    ∧ (k ≠ "Enter" → keypressHandler k v = [])
    ∧ HandlerEffect.preventDefault ∉ keypressHandler k v := by
  refine ⟨rfl, ?_, ?_⟩
  · intro h
    simp [keypressHandler, h]
  · by_cases h : k = "Enter" <;> simp [keypressHandler, h]

/-- C6 witness: pressing the key `"a"` produces no effect. -/
theorem C6_keypress_witness : keypressHandler "a" "hello" = [] :=
  (C6_keypress "a" "hello").2.1 (by decide)

/-- C7: a response parsing to the empty JSON array `[]` appends to the
results container a `<ul class="result-list">` with zero `<li>` children,
and nothing else. -/
theorem C7_empty_array (g : Globals) (qv : Option String) (ch : List Node)
    (q : String) :
    searchRun g ⟨some ch, qv⟩ q (.parsed (.arr []))
      = ⟨g, ⟨some [Node.element "ul" "result-list" []], qv⟩,
         [mkSearchRequest q], none⟩ := rfl

/-- Resumption of `search` on a well-formed parsed array: the rendered list
is appended after the container's current children. -/
theorem searchResolve_ok (g : Globals) (qv : Option String) (ch : List Node)
    (l : List JSValue) (h : ∀ e ∈ l, (destructure e).isSome) :
    searchResolve g ⟨some ch, qv⟩ (.parsed (.arr l))
      = ⟨finalGlobals g l, ⟨some (ch ++ [ulOf l]), qv⟩, none⟩ := by
  simp only [searchResolve, getIterable]
  rw [renderEntries_ok l g "ul" "result-list" [] h]
  simp [ulOf]

/-- C8 counterexample: two searches overlap — both synchronous prefixes run
before either response arrives, response A (one entry `x`) arrives first,
response B (one entry `y`) arrives last.  The container ends holding BOTH
lists, A's then B's, not only the last response's rendering: the last
response does not determine the final visible state by itself. -/
theorem C8_counterexample :
    (overlappedRun ⟨none, none⟩ ⟨some [], some ""⟩ "a" "b"
        (.parsed (.arr [.arr [.str "x", .num 1]]))
        (.parsed (.arr [.arr [.str "y", .num 2]]))).page.results
      = some [ulOf [.arr [.str "x", .num 1]], ulOf [.arr [.str "y", .num 2]]]
    ∧ (overlappedRun ⟨none, none⟩ ⟨some [], some ""⟩ "a" "b"
        (.parsed (.arr [.arr [.str "x", .num 1]]))
        (.parsed (.arr [.arr [.str "y", .num 2]]))).page.results
      ≠ lastResponseWinsPrediction [.arr [.str "y", .num 2]] := by
  refine ⟨rfl, ?_⟩
  intro h
  have h2 : (((overlappedRun ⟨none, none⟩ ⟨some [], some ""⟩ "a" "b"
        (.parsed (.arr [.arr [.str "x", .num 1]]))
        (.parsed (.arr [.arr [.str "y", .num 2]]))).page.results).getD []).length
      = 2 := rfl
  rw [h] at h2
  exact absurd (h2 : (1 : Nat) = 2) (by decide)

/-- C8 (amended): overlapping searches are indeed not serialized and not
cancelled — each issues its own request and neither rejects — but the last
response does not alone determine the final state: every response arriving
after the most recent invocation's clear appends its list in arrival order,
so the container ends holding the lists of all such responses, the
last-arriving one merely last. -/
theorem C8_amended (g : Globals) (qv : Option String) (ch : List Node)
    (qA qB : String) (lA lB : List JSValue)
    (hA : ∀ e ∈ lA, (destructure e).isSome)
    (hB : ∀ e ∈ lB, (destructure e).isSome) :
    (overlappedRun g ⟨some ch, qv⟩ qA qB
        (.parsed (.arr lA)) (.parsed (.arr lB))).page.results
      = some [ulOf lA, ulOf lB]
    ∧ (overlappedRun g ⟨some ch, qv⟩ qA qB
        (.parsed (.arr lA)) (.parsed (.arr lB))).requests
      = [mkSearchRequest qA, mkSearchRequest qB]
    ∧ (overlappedRun g ⟨some ch, qv⟩ qA qB
        (.parsed (.arr lA)) (.parsed (.arr lB))).rejections = [] := by
  simp [overlappedRun, searchSync, searchResolve_ok g qv [] lA hA,
        searchResolve_ok (finalGlobals g lA) qv [ulOf lA] lB hB]

/-- C8 (amended) witness: the counterexample schedule at concrete inputs. -/
theorem C8_amended_witness :
    (overlappedRun ⟨none, none⟩ ⟨some [], some ""⟩ "a" "b"
        (.parsed (.arr [.arr [.str "x", .num 1]]))
        (.parsed (.arr [.arr [.str "y", .num 2]]))).requests
      = [mkSearchRequest "a", mkSearchRequest "b"] :=
  (C8_amended ⟨none, none⟩ (some "") [] "a" "b"
    [.arr [.str "x", .num 1]] [.arr [.str "y", .num 2]]
    (by decide) (by decide)).2.1

/-- C9: rendering is atomic with respect to the container — when some entry
of the parsed array fails to destructure, the loop throws partway and the
`<ul>` (which is only appended after the whole loop completes) never reaches
the container: the results container stays empty and the operation rejects
with a TypeError. -/
theorem C9_atomic_render (g : Globals) (qv : Option String) (ch : List Node)
    (q : String) (l : List JSValue)
    (hbad : ∃ e ∈ l, destructure e = none) :
    (searchRun g ⟨some ch, qv⟩ q (.parsed (.arr l))).page.results = some []
    ∧ (searchRun g ⟨some ch, qv⟩ q (.parsed (.arr l))).rejection
        = some JSError.typeError := by
  have herr := renderEntries_err l g (Node.element "ul" "result-list" []) hbad
  rcases hre : renderEntries g (Node.element "ul" "result-list" []) l
    with ⟨g', ul, err⟩
  rw [hre] at herr
  simp only at herr
  subst herr
  simp [searchRun, searchSync, searchResolve, getIterable, hre]

/-- C9 witness: a response whose second entry is the non-iterable number `5`
leaves the container empty and the operation rejected. -/
theorem C9_atomic_render_witness :
    (searchRun ⟨none, none⟩ ⟨some [], some ""⟩ "q"
        (.parsed (.arr [.arr [.str "a", .num 1], .num 5]))).page.results
      = some [] :=
  (C9_atomic_render ⟨none, none⟩ (some "") [] "q"
    [.arr [.str "a", .num 1], .num 5]
    ⟨.num 5, List.mem_cons_of_mem _ (List.mem_cons_self _ _), rfl⟩).1

/-- C10: the loop targets `path` and `rank` are undeclared, hence global:
whenever a search completes on a response parsed as a nonempty array, both
globals end up assigned, holding the destructured components of the last
entry; and searches that render nothing (empty array, or a failed response)
leave whatever values the globals already held untouched, so the state
persists across searches. -/
theorem C10_globals_assigned (g : Globals) (qv : Option String)
    (ch : List Node) (q : String) (l : List JSValue) (e : JSValue)
    (hlast : l.getLast? = some e)
    (hok : (searchRun g ⟨some ch, qv⟩ q (.parsed (.arr l))).rejection
      = none) :
    (searchRun g ⟨some ch, qv⟩ q (.parsed (.arr l))).globals = entryGlobals e
    ∧ (entryGlobals e).path.isSome
    ∧ (entryGlobals e).rank.isSome
    ∧ (∀ g'' : Globals,
        (searchRun g'' ⟨some ch, qv⟩ q (.parsed (.arr []))).globals = g''
        ∧ (searchRun g'' ⟨some ch, qv⟩ q .fail).globals = g'') := by
  rcases hre : renderEntries g (Node.element "ul" "result-list" []) l
    with ⟨g', ul, err⟩
  cases err with
  | some e' => simp [searchRun, searchSync, searchResolve, getIterable, hre] at hok
  | none =>
    have hnone : (renderEntries g (Node.element "ul" "result-list" []) l).2.2
        = none := by rw [hre]
    obtain ⟨hg, hds⟩ :=
      renderEntries_last l g (Node.element "ul" "result-list" []) e hnone hlast
    rw [hre] at hg
    simp only at hg
    obtain ⟨⟨p, r⟩, hpr⟩ := Option.isSome_iff_exists.mp hds
    refine ⟨?_, ?_, ?_, fun g'' => ⟨rfl, rfl⟩⟩
    · simp [searchRun, searchSync, searchResolve, getIterable, hre]
      exact hg
    · simp [entryGlobals, hpr]
    · simp [entryGlobals, hpr]

/-- C10 witness: after a completed search over `[["a", 1], ["b", 2]]` the
globals hold `path = "b"` and `rank = 2`. -/
theorem C10_globals_assigned_witness :
    (searchRun ⟨none, none⟩ ⟨some [], some ""⟩ "q"
        (.parsed (.arr [.arr [.str "a", .num 1],
                        .arr [.str "b", .num 2]]))).globals
      = entryGlobals (.arr [.str "b", .num 2]) :=
  (C10_globals_assigned ⟨none, none⟩ (some "") [] "q"
    [.arr [.str "a", .num 1], .arr [.str "b", .num 2]]
    (.arr [.str "b", .num 2]) rfl rfl).1
